import Mathlib

/-!
Verification of the CANF matching engine (`matching.py`) against its
natural-language specification.

The definitions below are a shallow embedding of the Python source:
scalar cell values are modelled by `Value` (null / NaN / string), Python
string helpers (`strip`, `lower`, substring test, `split`) are modelled
over Lean `String`s, and the numeric coercion inside `normalize_value`
is modelled with exact decimal arithmetic (integer mantissa over a power
of ten).  Python's binary floating point rounds decimal literals to 53
bits of precision and prints them in shortest-repr form; the exact
decimal model agrees with it on every value exercised in this file and
differs only for literals of more than 17 significant digits or with
magnitude near the IEEE overflow threshold (the overflow and underflow
cutoffs are modelled at `10 ^ 309` and `10 ^ (-325)`).
-/

deriving instance DecidableEq for Except

namespace CANF

/-- Scalar cell value as seen by the Python code: `pynone` models `None`,
`pynan` models a float NaN coming from pandas, `pystr` models a string. -/
inductive Value where
  | pynone
  | pynan
  | pystr (s : String)
deriving DecidableEq, Repr

/-- Model of `pd.isna` on scalars: true exactly for `None` and NaN. -/
def pdIsna : Value → Bool
  | .pynone => true
  | .pynan => true
  | .pystr _ => false

/-- Model of Python `str()` on a scalar value (`str(None) = "None"`,
`str(nan) = "nan"`, strings unchanged). -/
def pyStrOf : Value → String
  | .pynone => "None"
  | .pynan => "nan"
  | .pystr s => s

/-- Characters removed by Python `str.strip()` with no argument
(ASCII whitespace). -/
def isPySpace (c : Char) : Bool :=
  c == ' ' || c == '\t' || c == '\n' || c == '\x0d' || c == '\x0b' || c == '\x0c'

/-- Model of Python `str.strip()`: drop leading and trailing whitespace. -/
def pyStrip (s : String) : String :=
  ⟨((s.data.dropWhile isPySpace).reverse.dropWhile isPySpace).reverse⟩

/-- Lowercase an ASCII character (kernel-reducible form). -/
def lowerChar (c : Char) : Char :=
  if 65 ≤ c.toNat && c.toNat ≤ 90 then Char.ofNat (c.toNat + 32) else c

/-- Model of Python `str.lower()` (ASCII range). -/
def pyLower (s : String) : String :=
  ⟨s.data.map lowerChar⟩

/-- Model of Python `str.startswith(t)`. -/
def pyStarts (s t : String) : Bool :=
  t.data.isPrefixOf s.data

/-- Model of Python `len(s)`. -/
def pyLen (s : String) : Nat :=
  s.data.length

/-- Split a character list at every occurrence of a nonempty separator,
leftmost first, non-overlapping (fuel-based for kernel evaluation). -/
def splitOnAux (sep : List Char) : Nat → List Char → List Char → List (List Char)
  | 0, acc, l => [acc.reverse ++ l]
  | fuel + 1, acc, l =>
    if sep.isPrefixOf l then
      acc.reverse :: splitOnAux sep fuel [] (l.drop sep.length)
    else
      match l with
      | [] => [acc.reverse]
      | c :: r => splitOnAux sep fuel (c :: acc) r

/-- Model of Python `s.split(sep)` for a nonempty separator (an empty
separator returns the string whole, mirroring `String.splitOn`). -/
def pySplit (s sep : String) : List String :=
  if sep.data.isEmpty then [s]
  else (splitOnAux sep.data (s.data.length + 1) [] s.data).map (fun l => ⟨l⟩)

/-- Model of Python `needle in hay` for strings: the empty needle is
contained in everything, otherwise containment is equivalent to
`str.split` producing more than one part. -/
def pySub (needle hay : String) : Bool :=
  needle == "" || (pySplit hay needle).length != 1

/-- Model of Python `':' in s` (single-character membership). -/
def pyHasChar (c : Char) (s : String) : Bool :=
  s.data.contains c

/-- Model of Python `sep.join(parts)`. -/
def pyJoin (sep : String) : List String → String
  | [] => ""
  | [p] => p
  | p :: rest => p ++ sep ++ pyJoin sep rest

/-- Model of Python `str.isdigit()` restricted to ASCII: nonempty and
all characters are decimal digits. -/
def pyIsdigit (s : String) : Bool :=
  !s.data.isEmpty && s.data.all Char.isDigit

/-- Model of Python `str.lstrip('0')`. -/
def lstripZeros (s : String) : String :=
  ⟨s.data.dropWhile (· == '0')⟩

/-- Decimal digits of a natural number, most significant first
(fuel-based so that the kernel can evaluate it). -/
def natDigitsAux : Nat → Nat → List Char
  | 0, _ => []
  | fuel + 1, n =>
    if n < 10 then [Char.ofNat (n + 48)]
    else natDigitsAux fuel (n / 10) ++ [Char.ofNat (n % 10 + 48)]

/-- Model of Python `str()` on a nonnegative integer. -/
def natToString (n : Nat) : String :=
  ⟨natDigitsAux (n + 1) n⟩

/-- Model of Python `str()` on an integer. -/
def intToString (i : Int) : String :=
  if i < 0 then "-" ++ natToString i.natAbs else natToString i.natAbs

/-- Numeric value of a list of ASCII digit characters. -/
def digitsToNat (l : List Char) : Nat :=
  l.foldl (fun n c => n * 10 + (c.toNat - 48)) 0

/-- Result of Python `float(str)`: NaN, a signed infinity, or a finite
value represented exactly as `m / 10 ^ k` (exact decimal model of the
IEEE double the source works with). -/
inductive PyFloat where
  | nan
  | inf (neg : Bool)
  | finite (m : Int) (k : Nat)
deriving DecidableEq, Repr

/-- Consume a run of decimal digits in which single underscores may
occur between two digits (Python numeric-literal rule); returns the
digits read (underscores dropped) and the unconsumed remainder. -/
def udigits : List Char → List Char × List Char
  | [] => ([], [])
  | [c] => if c.isDigit then ([c], []) else ([], [c])
  | c :: c1 :: r =>
    if c.isDigit then
      if c1 == '_' then
        match r with
        | [] => ([c], [c1])
        | c2 :: r2 =>
          if c2.isDigit then
            let p := udigits (c2 :: r2)
            (c :: p.1, p.2)
          else ([c], c1 :: c2 :: r2)
      else
        let p := udigits (c1 :: r)
        (c :: p.1, p.2)
    else ([], c :: c1 :: r)

/-- Strip an optional leading sign, returning whether it was `'-'`. -/
def parseSign : List Char → Bool × List Char
  | '+' :: r => (false, r)
  | '-' :: r => (true, r)
  | l => (false, l)

/-- Build the finite/overflowed/underflowed float out of sign, mantissa
`m0 / 10 ^ k0` and decimal exponent `e`.  Overflow to an infinity is
modelled at magnitude `10 ^ 309`, underflow to zero below `10 ^ (-325)`
(Python's IEEE doubles overflow near `1.8e308` and underflow near
`5e-324`; no claim exercises the gap). -/
def mkPyFloat (neg : Bool) (m0 : Nat) (k0 : Nat) (e : Int) : PyFloat :=
  if m0 = 0 then .finite 0 0
  else if e > 400 then .inf neg
  else if e < -400 then .finite 0 0
  else
    let m := if e ≥ 0 then m0 * 10 ^ e.toNat else m0
    let k := if e ≥ 0 then k0 else k0 + (-e).toNat
    if m ≥ 10 ^ (309 + k) then .inf neg
    else if m * 10 ^ 325 < 10 ^ k then .finite 0 0
    else .finite (if neg then -(m : Int) else (m : Int)) k

/-- Model of Python `float(s)` on an already-stripped string: optional
sign, then `inf`/`infinity`/`nan` (case-insensitive) or a decimal
literal `digits [. digits] [e [sign] digits]` with underscores allowed
between digits; anything else is a `ValueError`, modelled as `none`. -/
def pyFloatOfString (s : String) : Option PyFloat :=
  let (neg, l) := parseSign s.data
  let low := l.map Char.toLower
  if low = "inf".data || low = "infinity".data then some (.inf neg)
  else if low = "nan".data then some .nan
  else
    let (ip, r1) := udigits l
    let (fp, r2) :=
      match r1 with
      | '.' :: r => udigits r
      | _ => ([], r1)
    if ip.isEmpty && fp.isEmpty then none
    else
      let m0 := digitsToNat (ip ++ fp)
      let k0 := fp.length
      match r2 with
      | [] => some (mkPyFloat neg m0 k0 0)
      | 'e' :: r3 =>
        let (eneg, r4) := parseSign r3
        let (ep, r5) := udigits r4
        if ep.isEmpty || !r5.isEmpty then none
        else some (mkPyFloat neg m0 k0 (if eneg then -(digitsToNat ep : Int) else (digitsToNat ep : Int)))
      | 'E' :: r3 =>
        let (eneg, r4) := parseSign r3
        let (ep, r5) := udigits r4
        if ep.isEmpty || !r5.isEmpty then none
        else some (mkPyFloat neg m0 k0 (if eneg then -(digitsToNat ep : Int) else (digitsToNat ep : Int)))
      | _ => none

/-- Drop factors of ten shared by mantissa and scale, so that the
fractional digits printed are exactly Python's shortest form. -/
def reduceDec (m : Int) : Nat → Int × Nat
  | 0 => (m, 0)
  | k + 1 => if m % 10 = 0 then reduceDec (m / 10) k else (m, k + 1)

/-- Left-pad a digit string with zeros to a given width. -/
def padZeros (w : Nat) (l : List Char) : List Char :=
  List.replicate (w - l.length) '0' ++ l

/-- Model of Python `str()` on a finite non-integral float `m / 10 ^ k`:
sign, integer part, `'.'`, fractional digits without trailing zeros. -/
def renderDecimal (m : Int) (k : Nat) : String :=
  let p := reduceDec m k
  let a := p.1.natAbs
  let ipart := a / 10 ^ p.2
  let fpart := a % 10 ^ p.2
  (if p.1 < 0 then "-" else "") ++ natToString ipart ++ "." ++
    ⟨padZeros p.2 (natToString fpart).data⟩

/-- The one exception `normalize_value` can raise: `int()` applied to an
infinite float raises `OverflowError`, which the source does not catch. -/
inductive PyError where
  | overflowError
deriving DecidableEq, Repr

/-- Remove all spaces and underscores
(`.replace(" ", "").replace("_", "")`). -/
def pyClean (s : String) : String :=
  ⟨s.data.filter (fun c => c != ' ' && c != '_')⟩

/-- Shallow embedding of `normalize_value` (matching.py lines 24-52):
`pd.isna` maps `None`/NaN to the canonical null; otherwise the value is
stringified and stripped; a string starting with `'0'`, longer than one
character and all digits after the leading zeros is preserved verbatim
(postal-code leading zeros); otherwise numeric coercion is attempted —
an integral float is rendered as its integer, a non-integral one as its
float string, a `ValueError` (including `int(nan)`) keeps the original
string, and `int(inf)` raises `OverflowError`; finally the result is
lowercased and spaces and underscores are removed. -/
def normalize_value (value : Value) : Except PyError (Option String) :=
  if pdIsna value then .ok none
  else
    let str_value := pyStrip (pyStrOf value)
    if pyStarts str_value "0" && pyLen str_value > 1 && pyIsdigit (lstripZeros str_value) then
      .ok (some (pyClean (pyLower str_value)))
    else
      match pyFloatOfString str_value with
      | none => .ok (some (pyClean (pyLower str_value)))
      | some .nan => .ok (some (pyClean (pyLower str_value)))
      | some (.inf _) => .error .overflowError
      | some (.finite m k) =>
        if (10 ^ k : Int) ∣ m then
          .ok (some (pyClean (pyLower (intToString (m / (10 ^ k : Int))))))
        else
          .ok (some (pyClean (pyLower (renderDecimal m k))))

/-- Feeding the output of `normalize_value` back into it: a null result
stays null, a string result is normalized again, an exception
propagates.  This is the `normalize(normalize(x))` of the spec. -/
def normTwice (v : Value) : Except PyError (Option String) :=
  match normalize_value v with
  | .ok none => .ok none
  | .ok (some s) => normalize_value (.pystr s)
  | .error e => .error e

/-- Model of the regex substitution `re.sub(r'^\d+\.\s*', '', s)` used to
remove a leading ordinal such as `"1. "` from a condition line. -/
def stripOrdinal (s : String) : String :=
  let ds := s.data.takeWhile Char.isDigit
  if !ds.isEmpty && (s.data.drop ds.length).headD ' ' == '.' then
    ⟨(s.data.drop (ds.length + 1)).dropWhile isPySpace⟩
  else s

/-- Model of Python `s.split(':', 1)`: the text before the first colon
and everything after it (empty when there is no colon, mirroring the
source's `parts[1] if len(parts) > 1 else ''`). -/
def splitFirstColon (s : String) : String × String :=
  match pySplit s ":" with
  | [] => (s, "")
  | [p] => (p, "")
  | p :: rest => (p, pyJoin ":" rest)

/-- The `is_empty` test of `value_satisfies_condition` (matching.py line
679): `pd.isna`, or blank after stripping, or the lowercased text is one
of `nan`/`none`/`null`/the empty string. -/
def shipmentValueIsEmpty (v : Value) : Bool :=
  pdIsna v || pyStrip (pyStrOf v) == "" ||
    ((pyLower (pyStrOf v) == "nan" || pyLower (pyStrOf v) == "none" ||
      pyLower (pyStrOf v) == "null" || pyLower (pyStrOf v) == ""))

/-- Phrase classification of `value_satisfies_condition` (matching.py
lines 689-818), written as a chain of clauses where `none` models the
Python control flow falling through to the next check and `some b`
models a `return`.  `is_empty` is the emptiness of the shipment value,
`v` its lowercased string form, `cl` the lowercased logic phrase. -/
def vscPhrase (is_empty : Bool) (v : String) (cl : String) : Bool :=
  let c1 : Option Bool :=
    if pySub "is empty" cl || pySub "is empty in any item" cl then
      if is_empty then
        if pySub "does not contain" cl || pySub "and" cl then some true
        else some true
      else none
    else none
  let c2 : Option Bool :=
    if pySub "does not contain" cl then
      if is_empty then some true
      else
        match pySplit cl "does not contain" with
        | _ :: p1 :: _ =>
          let forbidden_part := pyStrip ((pySplit p1 "in any item").headD p1)
          let forbidden_values := (pySplit forbidden_part ",").map pyStrip
          some (!forbidden_values.any (fun f => f != "" && pySub f v))
        | _ => none
    else none
  let c3 : Option Bool :=
    if pySub "does not equal" cl || pySub "does not equal to" cl then
      if is_empty then some true
      else
        match pySplit cl "does not equal" with
        | _ :: p1 :: _ =>
          let forbidden_part := pyStrip ((pySplit p1 "in any item").headD p1)
          let forbidden_values := (pySplit forbidden_part ",").map pyStrip
          some (!forbidden_values.any (fun f => f != "" && v == f))
        | _ => none
    else none
  let c4 : Option Bool :=
    if pySub "contains" cl && !pySub "does not contain" cl then
      if is_empty then some false
      else
        match pySplit cl "contains" with
        | _ :: p1 :: _ =>
          let required_part := pyStrip ((pySplit p1 "in any item").headD p1)
          let required_values := (pySplit required_part ",").map pyStrip
          some (required_values.any (fun r => r != "" && pySub r v))
        | _ => none
    else none
  let c5 : Option Bool :=
    if pySub "equal to" cl || (pySub "equals" cl && !pySub "does not equal" cl) then
      if is_empty then some false
      else
        let parts := if pySub "equal to" cl then pySplit cl "equal to" else pySplit cl "equals"
        match parts with
        | _ :: p1 :: _ =>
          let required_part := pyStrip ((pySplit p1 "in any item").headD p1)
          let required_values := (pySplit required_part ",").map pyStrip
          some (required_values.any (fun r => r != "" && v == r))
        | _ => none
    else none
  ((((c1.orElse (fun _ => c2)).orElse (fun _ => c3)).orElse
      (fun _ => c4)).orElse (fun _ => c5)).getD false

/-- Shallow embedding of `value_satisfies_condition` (matching.py lines
623-818): an empty condition text is rejected; the text is stripped; if
it contains a colon, the leading ordinal is removed, the text is split
at the first colon, and the rule is rejected unless the value token
matches the lowercased rate-card value (rule scoping); the remaining
logic phrase is then classified by `vscPhrase`. -/
def value_satisfies_condition (resmed_value : Value) (rate_card_value : Value)
    (condition_text : String) : Bool :=
  if condition_text == "" then false
  else
    let ct := pyStrip condition_text
    let rate_card_val_str := if pdIsna rate_card_value then "" else pyLower (pyStrOf rate_card_value)
    let scopedLogic : Option String :=
      if pyHasChar ':' ct then
        let cleaned := stripOrdinal ct
        let parts := splitFirstColon cleaned
        let condition_value := pyStrip parts.1
        if rate_card_val_str != "" && pyLower condition_value != rate_card_val_str then none
        else some (pyStrip parts.2)
      else some ct
    match scopedLogic with
    | none => false
    | some logic =>
      vscPhrase (shipmentValueIsEmpty resmed_value)
        (if pdIsna resmed_value then "" else pyLower (pyStrOf resmed_value))
        (pyLower logic)

/-- Python truthiness of a normalized value: `None` and the empty string
are falsy. -/
def pyTruthy : Option String → Bool
  | none => false
  | some s => s != ""

/-- Row of a table, keyed by normalized column name, as produced by the
normalized-value dict comprehensions in `match_shipments_with_rate_card`
(matching.py lines 1554-1572). -/
def normalizeRowVals (row : List (String × Value)) :
    Except PyError (List (String × Option String)) :=
  row.mapM (fun p => (normalize_value p.2).map (fun n => (p.1, n)))

/-- Whether a normalized column name is treated as a postal-code column
by the lane scorer (matching.py line 1581): the name contains `post`,
`ship_post` or `cust_post` (the source also adds `postal` in the
discrepancy pass). -/
def isPostalCodeColumn (col : String) : Bool :=
  pySub "post" (pyLower col) || pySub "ship_post" (pyLower col) ||
    pySub "cust_post" (pyLower col)

/-- The per-lane score of `match_shipments_with_rate_card` (matching.py
lines 1565-1588): over the shared normalized columns, count a column
when both normalized values are present and equal, except that a postal
column with two truthy values counts when the shipment value starts with
the rate-card value. -/
def currentMatches (commonCols : List String)
    (sh ln : List (String × Option String)) : Nat :=
  commonCols.foldl
    (fun acc col =>
      match sh.lookup col, ln.lookup col with
      | some etofs_val, some rc_val =>
        if isPostalCodeColumn col && pyTruthy etofs_val && pyTruthy rc_val then
          if pyStarts ((etofs_val).getD "") ((rc_val).getD "") then acc + 1 else acc
        else if etofs_val == rc_val then acc + 1 else acc
      | _, _ => acc)
    0

/-- The best-match fold of `match_shipments_with_rate_card` (matching.py
lines 1560-1595): the running maximum starts at `-1`; a strictly higher
score replaces the candidate list, an equal score is appended only when
it is positive. -/
def bestMatchesStep (commonCols : List String) (sh : List (String × Option String))
    (st : Int × List (List (String × Value))) (lane : List (String × Value)) :
    Except PyError (Int × List (List (String × Value))) := do
  let laneN ← normalizeRowVals lane
  let score : Int := (currentMatches commonCols sh laneN : Nat)
  if score > st.1 then
    return (score, [lane])
  else if score == st.1 && score > 0 then
    return (st.1, st.2 ++ [lane])
  else
    return st

/-- Scan all rate-card lanes for a shipment, returning the list of
best-matching lanes exactly as the source loop builds it. -/
def bestMatchesOfRows (commonCols : List String) (ship : List (String × Value))
    (lanes : List (List (String × Value))) :
    Except PyError (List (List (String × Value))) := do
  let sh ← normalizeRowVals ship
  let st ← lanes.foldlM (bestMatchesStep commonCols sh) ((-1 : Int), [])
  return st.2

/-- Normalize one shipment/lane cell pair for a single column and score
it, as the scoring loop does (used to state the postal-prefix claim). -/
def scoreLaneRaw (commonCols : List String) (ship lane : List (String × Value)) :
    Except PyError Nat := do
  let sh ← normalizeRowVals ship
  let ln ← normalizeRowVals lane
  return currentMatches commonCols sh ln

/-- The source emits "No matching rate card entries found" exactly when
the best-match list is empty (matching.py lines 1610-1617). -/
def noMatchCommentEmitted (best : List (List (String × Value))) : Bool :=
  best.length == 0

/-- Whether the engine flags too many tying lanes (matching.py line
1598): strictly more than 4 best-matching lanes. -/
def tooManyMatchesFlag (n : Nat) : Bool :=
  n > 4

/-- Gregorian leap-year rule (as used by pandas timestamps). -/
def isLeapYear (y : Nat) : Bool :=
  (y % 4 == 0 && y % 100 != 0) || y % 400 == 0

/-- Days in a month of a given year. -/
def daysInMonth (y m : Nat) : Nat :=
  if m == 2 then (if isLeapYear y then 29 else 28)
  else if m == 4 || m == 6 || m == 9 || m == 11 then 30
  else 31

/-- A calendar date is valid when the month and day are in range. -/
def validYMD (y m d : Nat) : Bool :=
  1 ≤ m && m ≤ 12 && 1 ≤ d && d ≤ daysInMonth y m

/-- Encode a valid date so that the usual order on `Nat` agrees with
chronological order. -/
def encodeDate (y m d : Nat) : Nat :=
  y * 10000 + m * 100 + d

/-- Numeric value of a digit substring of `s` (by position). -/
def sliceNat (s : String) (start len : Nat) : Nat :=
  digitsToNat ((s.data.drop start).take len)

/-- Model of `pd.to_datetime(s, format='%Y%m%d', errors='coerce')` on an
8-digit string: `NaT` (here `none`) when the calendar date is invalid. -/
def parseYYYYMMDD (s : String) : Option Nat :=
  let y := sliceNat s 0 4
  let m := sliceNat s 4 2
  let d := sliceNat s 6 2
  if validYMD y m d then some (encodeDate y m d) else none

/-- Model of `pd.to_datetime(s, format='%d%m%Y', errors='coerce')` on an
8-digit string. -/
def parseDDMMYYYY (s : String) : Option Nat :=
  let d := sliceNat s 0 2
  let m := sliceNat s 2 2
  let y := sliceNat s 4 4
  if validYMD y m d then some (encodeDate y m d) else none

/-- Model of `pd.to_datetime(s, format='%d.%m.%Y', errors='coerce')`:
day, month and four-digit year separated by dots. -/
def parseDotted (s : String) : Option Nat :=
  match pySplit s "." with
  | [ds, ms, ys] =>
    if pyIsdigit ds && pyIsdigit ms && pyIsdigit ys &&
        pyLen ds ≤ 2 && pyLen ms ≤ 2 && pyLen ys == 4 then
      let d := digitsToNat ds.data
      let m := digitsToNat ms.data
      let y := digitsToNat ys.data
      if validYMD y m d then some (encodeDate y m d) else none
    else none
  | _ => none

/-- Modelled from the source's `pd.to_datetime(value, errors='coerce')`
fallback for ISO-format inputs `YYYY-MM-DD` (the general pandas parser
accepts more formats; every claim exercises it only on ISO-shaped
strings, which it coerces to `NaT` when the calendar date is invalid). -/
def parseISOGeneric (s : String) : Option Nat :=
  match pySplit s "-" with
  | [ys, ms, ds] =>
    if pyIsdigit ys && pyIsdigit ms && pyIsdigit ds &&
        pyLen ys == 4 && pyLen ms ≤ 2 && pyLen ds ≤ 2 then
      let y := digitsToNat ys.data
      let m := digitsToNat ms.data
      let d := digitsToNat ds.data
      if validYMD y m d then some (encodeDate y m d) else none
    else none
  | _ => none

/-- Parsing of the shipment date inside the validity filter (matching.py
lines 1665-1672): 8 digits mean `YYYYMMDD`, anything else goes to the
generic pandas parser. -/
def shipDateParse (v : String) : Option Nat :=
  let s := pyStrip v
  if pyIsdigit s && pyLen s == 8 then parseYYYYMMDD s else parseISOGeneric s

/-- Parsing of a lane `Valid from`/`Valid to` cell (matching.py lines
1674-1699): a dot selects `DD.MM.YYYY`, 8 digits select `DDMMYYYY`,
anything else goes to the generic day-first pandas parser. -/
def validBoundParse (v : String) : Option Nat :=
  let s := pyStrip v
  if pyHasChar '.' s then parseDotted s
  else if pyIsdigit s && pyLen s == 8 then parseDDMMYYYY s
  else parseISOGeneric s

/-- The per-candidate date check of the validity filter (matching.py
lines 1713-1734): `is_date_valid` starts true and becomes false only
when `valid_from`/`valid_to` are non-null, all three dates parse, and
the shipment date is strictly outside the window. -/
def laneDateValid (dateValue vf vt : Value) : Bool :=
  if !pdIsna vf && !pdIsna vt then
    match shipDateParse (pyStrOf dateValue), validBoundParse (pyStrOf vf),
        validBoundParse (pyStrOf vt) with
    | some d, some f, some t => !(d < f || d > t)
    | _, _, _ => true
  else true

/-- The validity filter keeps exactly the candidates whose date check
passed (matching.py lines 1736-1744). -/
def filterValidMatches (dateValue : Value)
    (ms : List (List (String × Value) × Value × Value)) :
    List (List (String × Value) × Value × Value) :=
  ms.filter (fun m => laneDateValid dateValue m.2.1 m.2.2)

/-- One discrepancy record, as the dicts appended in the source: column
name, shipment value, rate-card value, optional condition text, and
whether it is a date-range discrepancy. -/
structure Disc where
  column : String
  etofs_value : String
  rate_card_value : String
  condition : Option String
  date_range : Bool
deriving DecidableEq, Repr

/-- The date-range discrepancy of the per-candidate pass (matching.py
lines 1774-1846): produced only when `valid_from`/`valid_to` are
non-null, all three dates parse, and the shipment date is outside the
window; a parse failure never produces one. -/
def dateRangeDisc (dateCol : String) (dateValue vf vt : Value) : Option Disc :=
  if !pdIsna vf && !pdIsna vt then
    match shipDateParse (pyStrOf dateValue), validBoundParse (pyStrOf vf),
        validBoundParse (pyStrOf vt) with
    | some d, some f, some t =>
      if d < f || d > t then
        some { column := dateCol, etofs_value := pyStrOf dateValue,
               rate_card_value := "Valid from: " ++ pyStrOf vf ++ " to " ++ pyStrOf vt,
               condition := none, date_range := true }
      else none
    | _, _, _ => none
  else none

/-- Insert a discrepancy into the insertion-ordered per-column grouping
(Python dicts preserve insertion order). -/
def insertDisc (acc : List (String × List Disc)) (d : Disc) : List (String × List Disc) :=
  match acc with
  | [] => [(d.column, [d])]
  | (c, l) :: rest =>
    if c == d.column then (c, l ++ [d]) :: rest else (c, l) :: insertDisc rest d

/-- Group discrepancies by column, preserving first-occurrence order of
columns and insertion order within each column (matching.py lines
1037-1045). -/
def groupByColumn (ds : List Disc) : List (String × List Disc) :=
  ds.foldl insertDisc []

/-- Greedy 80 percent cover of the top (at most 3) columns (matching.py
lines 1070-1078): walk the sorted list, accumulate counts, and stop at
the first prefix reaching 80 percent.  The float comparison
`covered/total >= 0.8` is modelled exactly as `covered * 5 >= total * 4`. -/
def takeCoverAux (total : Nat) : List (String × Nat) → Nat → List String × Nat
  | [], cov => ([], cov)
  | (c, n) :: rest, cov =>
    let cov2 := cov + n
    if cov2 * 5 ≥ total * 4 then ([c], cov2)
    else
      let p := takeCoverAux total rest cov2
      (c :: p.1, p.2)

/-- Shallow embedding of `analyze_discrepancy_patterns` (matching.py
lines 1019-1087).  Returns `(has_common_pattern, pattern_comment,
minor_discrepancies)`.  The float threshold `count/total >= 0.7` is
modelled exactly as `count * 10 >= total * 7`; the stable descending
sort of Python `sorted(..., reverse=True)` is `List.mergeSort` with the
`≥`-by-count comparator.  The `conditions_dict` parameter of the source
is unused in its body and omitted here. -/
def analyze_discrepancy_patterns (all_discrepancies : List Disc) :
    Bool × String × List Disc :=
  if all_discrepancies.isEmpty then
    (false, "Please recheck the shipment details", [])
  else
    let groups := groupByColumn all_discrepancies
    let total := all_discrepancies.length
    if groups.length == 1 then
      (true, (groups.headD ("Unknown", [])).1 ++ ": Shipment value needs to be changed", [])
    else
      match groups.find? (fun g => g.2.length * 10 ≥ total * 7) with
      | some g =>
        let minor := groups.filterMap
          (fun g2 => if g2.1 != g.1 then g2.2.head? else none)
        (true, g.1 ++ ": Shipment value needs to be changed", minor)
      | none =>
        let sorted := (groups.map (fun g => (g.1, g.2.length))).mergeSort
          (fun a b => a.2 ≥ b.2)
        let cover := takeCoverAux total (sorted.take 3) 0
        if cover.1.length ≤ 3 && cover.2 * 5 ≥ total * 4 then
          (true, pyJoin ", " cover.1 ++ ": Shipment values need to be changed", [])
        else
          (false, "Please recheck the shipment details", [])

/-- Model of the search `re.search(r':\s*equals?\s+([^\n]+)', text,
re.IGNORECASE)` used to surface the actionable code from a condition
(matching.py lines 1979-1984 and 2012-2023): scan left to right for a
colon, optional whitespace, `equal` optionally followed by `s`
(case-insensitive), at least one whitespace, then capture the rest of
the line (which must be nonempty). -/
def equalsCodeSearch : List Char → Option String
  | [] => none
  | ':' :: r =>
    let r1 := r.dropWhile isPySpace
    let r2 := r1.map lowerChar
    let afterEqual : Option (List Char) :=
      if "equals".data.isPrefixOf r2 then some (r1.drop 6)
      else if "equal".data.isPrefixOf r2 then some (r1.drop 5)
      else none
    match afterEqual with
    | some rest =>
      if !rest.isEmpty && isPySpace (rest.headD ' ') then
        let cap := (rest.dropWhile isPySpace).takeWhile (fun c => c != '\n')
        if cap.isEmpty then equalsCodeSearch r else some ⟨cap⟩
      else equalsCodeSearch r
    | none => equalsCodeSearch r
  | _ :: r => equalsCodeSearch r

/-- Target value shown for a discrepancy (matching.py lines 1975-1984
and 2008-2027): the rate-card value, unless the stored condition text
contains an `equals` phrase whose code is extracted instead. -/
def discTargetValue (d : Disc) : String :=
  match d.condition with
  | some ctext =>
    if ctext != "" then
      match equalsCodeSearch ctext.data with
      | some code => pyStrip code
      | none => d.rate_card_value
    else d.rate_card_value
  | none => d.rate_card_value

/-- One "Also:" line for a minor discrepancy (matching.py line 1986). -/
def alsoLine (d : Disc) : String :=
  "Also: " ++ d.column ++ ": '" ++ d.etofs_value ++ "' → '" ++ discTargetValue d ++ "'"

/-- One itemized discrepancy line (matching.py lines 2002-2029). -/
def discLine (d : Disc) : String :=
  if d.date_range then
    "  " ++ d.column ++ ": Shipment value '" ++ d.etofs_value ++
      "' is outside valid date range (" ++ d.rate_card_value ++ ")"
  else
    " " ++ d.column ++ ": Shipment value '" ++ d.etofs_value ++
      "' needs to be changed to '" ++ discTargetValue d ++ "'"

/-- The per-candidate itemization blocks (matching.py lines 1997-2030):
one "Discrepancies for Match N:" header per candidate that has
discrepancies, followed by its lines. -/
def itemizeBlocks (best : List (List Disc)) : List String :=
  best.enum.foldl
    (fun acc p =>
      if p.2.isEmpty then acc
      else acc ++ ("Discrepancies for Match " ++ natToString (p.1 + 1) ++ ":") :: p.2.map discLine)
    []

/-- The comment-assembly tail of `match_shipments_with_rate_card`
(matching.py lines 1947-2030), taking the candidates' discrepancy lists,
the `too_many_matches` flag computed at scoring time, and the comments
accumulated so far: add the too-many-fields warning when a candidate has
more than 5 discrepancies; in the too-many-matches branch pool all
discrepancies, run the pattern analyzer, and add the "Also:" and lane
count lines when a pattern was found; finally itemize per candidate only
when no recheck message is present and the flag is off. -/
def summarizeComments (too_many_matches : Bool) (best : List (List Disc))
    (prior : List String) : List String :=
  let c1 := prior ++
    (if best.any (fun m => m.length > 5) then
      ["Please recheck the shipment details. Too many shipment details to update."]
    else [])
  let c2 :=
    if too_many_matches then
      let all_discrepancies := best.foldl (· ++ ·) []
      if !all_discrepancies.isEmpty then
        let r := analyze_discrepancy_patterns all_discrepancies
        let base := c1 ++ [r.2.1]
        if r.1 then
          base ++ r.2.2.map alsoLine ++
            ["(" ++ natToString best.length ++ " possible rate lanes can be applied with this change)"]
        else base
      else c1
    else c1
  let has_recheck := pySub "Please recheck the shipment details" (pyJoin "\n" c2)
  if !has_recheck && !too_many_matches then c2 ++ itemizeBlocks best else c2

/-- Modelled from the spec: the pattern-summarization-only output for a
shipment with too many tying lanes (section 4.6) — the too-many-fields
warning if applicable, then the pooled pattern comment with its "Also:"
lines and lane count, and no per-candidate itemization. -/
def specPatternOnlySummary (best : List (List Disc)) : List String :=
  let warn :=
    if best.any (fun m => m.length > 5) then
      ["Please recheck the shipment details. Too many shipment details to update."]
    else []
  let pooled := best.foldl (· ++ ·) []
  if !pooled.isEmpty then
    let r := analyze_discrepancy_patterns pooled
    if r.1 then
      warn ++ [r.2.1] ++ r.2.2.map alsoLine ++
        ["(" ++ natToString best.length ++ " possible rate lanes can be applied with this change)"]
    else warn ++ [r.2.1]
  else warn

/-- The condition line used by the spec's scoping and priority examples. -/
def nacRateTypeRule : String :=
  "NAC: RATE_TYPE is empty in any item and does not contain FAK in any item"

/-- C1: the claim says a maximum score of 0 (or an empty lane list)
yields the empty candidate list and the no-match comment.  The code
initializes the running maximum to `-1`, so with a nonempty lane list
the first lane is always kept even at score 0: here the single lane
scores 0 against the shipment, yet the candidate list is that lane and
the no-match comment is not emitted; the empty list is returned only
when there are no lanes at all. -/
theorem c1_zero_score_first_lane_kept :
    scoreLaneRaw ["origincountry"] [("origincountry", Value.pystr "US")]
      [("origincountry", Value.pystr "DE")] = .ok 0 ∧
    bestMatchesOfRows ["origincountry"] [("origincountry", Value.pystr "US")]
      [[("origincountry", Value.pystr "DE")]] = .ok [[("origincountry", Value.pystr "DE")]] ∧
    noMatchCommentEmitted [[("origincountry", Value.pystr "DE")]] = false ∧
    bestMatchesOfRows ["origincountry"] [("origincountry", Value.pystr "US")] [] = .ok [] ∧
    noMatchCommentEmitted ([] : List (List (String × Value))) = true := by
  decide

/-- C2 counterexample: the empty string does not normalize to the
canonical null result that `None` gets, and `normalize` is not total —
the string "inf" raises `OverflowError` (uncaught `int(float('inf'))`). -/
theorem c2_counterexample :
    normalize_value (Value.pystr "") ≠ normalize_value Value.pynone ∧
    normalize_value (Value.pystr "inf") = .error .overflowError := by
  decide

/-- C2 amended: `normalize` maps `None` and NaN to the canonical null,
but the strings "", "nan" and "null" normalize to themselves, and the
function throws `OverflowError` on strings coercing to an infinite
float. -/
theorem c2_normalize_null_behavior :
    normalize_value Value.pynone = .ok none ∧
    normalize_value Value.pynan = .ok none ∧
    normalize_value (Value.pystr "") = .ok (some "") ∧
    normalize_value (Value.pystr "nan") = .ok (some "nan") ∧
    normalize_value (Value.pystr "null") = .ok (some "null") ∧
    normalize_value (Value.pystr "inf") = .error .overflowError ∧
    normalize_value (Value.pystr "Infinity") = .error .overflowError := by
  decide

/-- C3 counterexample: for the rule phrase containing "is empty"
evaluated against the non-empty shipment value "ABC", the claim says
clause 1 decides the result as false; the interpreter instead falls
through and the "does not contain" clause returns true. -/
theorem c3_counterexample :
    value_satisfies_condition (Value.pystr "ABC") (Value.pystr "NAC")
      nacRateTypeRule = true := by
  decide

/-- C3 amended: the clauses are tried in the order is-empty, does-not-
contain, does-not-equal, contains, equals, but the is-empty clause
returns only when the shipment value is empty; on a non-empty value a
chained "does not contain" clause decides, so for this rule the result
is exactly: the value is empty, or its lowercased form does not contain
"fak". -/
theorem c3_is_empty_falls_through (s : String) :
    value_satisfies_condition (Value.pystr s) (Value.pystr "NAC") nacRateTypeRule =
      (shipmentValueIsEmpty (Value.pystr s) || !pySub "fak" (pyLower s)) := by
  show vscPhrase (shipmentValueIsEmpty (Value.pystr s)) (pyLower s)
    "rate_type is empty in any item and does not contain fak in any item" = _
  cases shipmentValueIsEmpty (Value.pystr s) with
  | false =>
    show (!(pySub "fak" (pyLower s) || false)) = (false || !pySub "fak" (pyLower s))
    cases pySub "fak" (pyLower s) <;> rfl
  | true => rfl

/-- The pooled tie scenario of the pattern-dominance example: 5 tying
lanes whose discrepancies total 10, 7 of them in "Origin Postal Code"
and 3 spread over the 2 columns "Service Type" and "Carrier". -/
def dominanceTieCandidates : List (List Disc) :=
  [[⟨"Origin Postal Code", "1", "194", none, false⟩,
    ⟨"Origin Postal Code", "2", "194", none, false⟩],
   [⟨"Origin Postal Code", "3", "194", none, false⟩,
    ⟨"Origin Postal Code", "4", "194", none, false⟩],
   [⟨"Origin Postal Code", "5", "194", none, false⟩,
    ⟨"Origin Postal Code", "6", "194", none, false⟩],
   [⟨"Origin Postal Code", "7", "194", none, false⟩,
    ⟨"Service Type", "x", "AIR", none, false⟩],
   [⟨"Service Type", "y", "AIR", none, false⟩,
    ⟨"Carrier", "z", "DHL", none, false⟩]]

set_option maxRecDepth 10000 in
/-- C4 counterexample: in the 7-of-10 dominance scenario the claim says
no "Also:" lines are added for the minority columns; the summarizer
does add them. -/
theorem c4_counterexample :
    (summarizeComments (tooManyMatchesFlag dominanceTieCandidates.length)
        dominanceTieCandidates []).any (fun l => pyStarts l "Also: ") = true := by
  decide

set_option maxRecDepth 10000 in
/-- C4 amended: in the 7-of-10 dominance scenario the ≥ 70 percent rule
names exactly "Origin Postal Code" as the dominant cause and adds one
"Also:" line for each of the two minority columns, followed by the lane
count. -/
theorem c4_dominant_field_output :
    summarizeComments (tooManyMatchesFlag dominanceTieCandidates.length)
        dominanceTieCandidates [] =
      ["Origin Postal Code: Shipment value needs to be changed",
       "Also: Service Type: 'x' → 'AIR'",
       "Also: Carrier: 'z' → 'DHL'",
       "(5 possible rate lanes can be applied with this change)"] := by
  decide

/-- C5: with more than 4 tying lanes the engine sets `too_many_matches`
and the emitted comment is exactly the pattern-summarization output —
the pooled pattern comment with its "Also:" and lane-count lines — with
no per-candidate "Discrepancies for Match N:" itemization (the
itemization branch is gated on the flag being off). -/
theorem c5_too_many_matches_pattern_path (best : List (List Disc))
    (h : best.length > 4) :
    tooManyMatchesFlag best.length = true ∧
    summarizeComments (tooManyMatchesFlag best.length) best [] =
      specPatternOnlySummary best := by
  have hf : tooManyMatchesFlag best.length = true := by
    simp [tooManyMatchesFlag, h]
  refine ⟨hf, ?_⟩
  rw [hf]
  simp only [summarizeComments, specPatternOnlySummary, Bool.not_true,
    Bool.and_false, if_false, List.nil_append, List.append_assoc,
    Bool.false_eq_true, ite_false, if_true, ite_true]

/-- C5 witness: five tying single-discrepancy candidates. -/
theorem c5_witness :
    tooManyMatchesFlag ([[⟨"Origin Port", "a", "LGB", none, false⟩],
      [⟨"Origin Port", "b", "LGB", none, false⟩],
      [⟨"Origin Port", "c", "LGB", none, false⟩],
      [⟨"Origin Port", "d", "LGB", none, false⟩],
      [⟨"Origin Port", "e", "LGB", none, false⟩]] : List (List Disc)).length = true ∧
    summarizeComments (tooManyMatchesFlag ([[⟨"Origin Port", "a", "LGB", none, false⟩],
      [⟨"Origin Port", "b", "LGB", none, false⟩],
      [⟨"Origin Port", "c", "LGB", none, false⟩],
      [⟨"Origin Port", "d", "LGB", none, false⟩],
      [⟨"Origin Port", "e", "LGB", none, false⟩]] : List (List Disc)).length)
      [[⟨"Origin Port", "a", "LGB", none, false⟩],
       [⟨"Origin Port", "b", "LGB", none, false⟩],
       [⟨"Origin Port", "c", "LGB", none, false⟩],
       [⟨"Origin Port", "d", "LGB", none, false⟩],
       [⟨"Origin Port", "e", "LGB", none, false⟩]] [] =
      specPatternOnlySummary
        [[⟨"Origin Port", "a", "LGB", none, false⟩],
         [⟨"Origin Port", "b", "LGB", none, false⟩],
         [⟨"Origin Port", "c", "LGB", none, false⟩],
         [⟨"Origin Port", "d", "LGB", none, false⟩],
         [⟨"Origin Port", "e", "LGB", none, false⟩]] :=
  c5_too_many_matches_pattern_path _ (by decide)

/-- C6: the validity-date filter is fail-open — whenever the shipment
date or a lane's `valid_from`/`valid_to` fails to parse, the candidate's
date check passes (it is kept) and no date-range discrepancy is
produced; the check fails only when all three dates parse and the
shipment date is strictly outside the window. -/
theorem c6_date_filter_fail_open (dv vf vt : Value) (dc : String) :
    ((shipDateParse (pyStrOf dv) = none ∨ validBoundParse (pyStrOf vf) = none ∨
        validBoundParse (pyStrOf vt) = none) →
      laneDateValid dv vf vt = true ∧ dateRangeDisc dc dv vf vt = none) ∧
    (laneDateValid dv vf vt = false →
      ∃ d f t, shipDateParse (pyStrOf dv) = some d ∧
        validBoundParse (pyStrOf vf) = some f ∧
        validBoundParse (pyStrOf vt) = some t ∧ (d < f ∨ d > t)) := by
  constructor
  · intro hpf
    unfold laneDateValid dateRangeDisc
    by_cases hg : (!pdIsna vf && !pdIsna vt) = true
    · rw [if_pos hg, if_pos hg]
      rcases hd : shipDateParse (pyStrOf dv) with _ | d <;>
        rcases hb1 : validBoundParse (pyStrOf vf) with _ | f <;>
          rcases hb2 : validBoundParse (pyStrOf vt) with _ | t <;>
            simp_all
    · rw [if_neg hg, if_neg hg]
      exact ⟨rfl, rfl⟩
  · intro hinv
    unfold laneDateValid at hinv
    by_cases hg : (!pdIsna vf && !pdIsna vt) = true
    · rw [if_pos hg] at hinv
      rcases hd : shipDateParse (pyStrOf dv) with _ | d <;>
        rcases hb1 : validBoundParse (pyStrOf vf) with _ | f <;>
          rcases hb2 : validBoundParse (pyStrOf vt) with _ | t <;>
            rw [hd, hb1, hb2] at hinv
      all_goals try (replace hinv : true = false := hinv; cases hinv)
      replace hinv : (!(decide (d < f) || decide (d > t))) = false := hinv
      refine ⟨d, f, t, rfl, rfl, rfl, ?_⟩
      by_cases h1 : d < f
      · exact Or.inl h1
      · by_cases h2 : d > t
        · exact Or.inr h2
        · simp [h1, h2] at hinv
    · rw [if_neg hg] at hinv
      cases hinv

/-- C6 witness: the invalid shipment date "2025-13-40" leaves any lane
kept, with no date-range discrepancy. -/
theorem c6_witness :
    laneDateValid (Value.pystr "2025-13-40") (Value.pystr "01.01.2025")
      (Value.pystr "31.12.2025") = true ∧
    dateRangeDisc "SHIP_DATE" (Value.pystr "2025-13-40") (Value.pystr "01.01.2025")
      (Value.pystr "31.12.2025") = none :=
  (c6_date_filter_fail_open (Value.pystr "2025-13-40") (Value.pystr "01.01.2025")
      (Value.pystr "31.12.2025") "SHIP_DATE").1 (Or.inl (by decide))

/-- C7: a condition rule is scoped to one rate-card value — the NAC rule
with lane value "NAC" and a null shipment value is satisfied, and the
same rule with lane value "OTHER" is rejected by the scoping check for
every shipment value. -/
theorem c7_condition_scoping :
    value_satisfies_condition Value.pynone (Value.pystr "NAC") nacRateTypeRule = true ∧
    ∀ v : Value, value_satisfies_condition v (Value.pystr "OTHER") nacRateTypeRule = false :=
  ⟨by decide, fun _ => rfl⟩

/-- C8 counterexample: normalization is not idempotent — removing the
inner space of "7 719.0" produces "7719.0", which a second pass
coerces to "7719". -/
theorem c8_counterexample :
    normTwice (Value.pystr "7 719.0") ≠ normalize_value (Value.pystr "7 719.0") := by
  decide

/-- C8 amended: normalization is idempotent on the spec's sampled values
(but not universally, see the counterexample, pinned down by the last
two conjuncts); leading zeros are preserved for postal-like tokens, and
numerically equal forms collapse. -/
theorem c8_idempotence_sampled :
    normTwice (Value.pystr "04123") = normalize_value (Value.pystr "04123") ∧
    normTwice (Value.pystr "7719.0") = normalize_value (Value.pystr "7719.0") ∧
    normTwice (Value.pystr "7719") = normalize_value (Value.pystr "7719") ∧
    normTwice Value.pynone = normalize_value Value.pynone ∧
    normalize_value (Value.pystr "04123") = .ok (some "04123") ∧
    normalize_value (Value.pystr "7719.0") = normalize_value (Value.pystr "7719") ∧
    normalize_value (Value.pystr "7 719.0") = .ok (some "7719.0") ∧
    normTwice (Value.pystr "7 719.0") = .ok (some "7719") := by
  decide

/-- C9: in lane scoring a postal-code column counts as a match exactly
when the normalized shipment value starts with the normalized lane
value (given both normalize to truthy strings). -/
theorem c9_postal_prefix_scoring (col sa sb na nb : String)
    (hpost : isPostalCodeColumn col = true)
    (ha : normalize_value (Value.pystr sa) = .ok (some na))
    (hb : normalize_value (Value.pystr sb) = .ok (some nb))
    (hna : na ≠ "") (hnb : nb ≠ "") :
    scoreLaneRaw [col] [(col, Value.pystr sa)] [(col, Value.pystr sb)] =
      .ok (if pyStarts na nb then 1 else 0) := by
  unfold scoreLaneRaw normalizeRowVals
  simp only [List.mapM_cons, List.mapM_nil, ha, hb, Except.map, pure,
    Except.pure, bind, Except.bind]
  unfold currentMatches
  simp only [List.foldl, List.lookup, beq_self_eq_true, if_true, ite_true,
    hpost, pyTruthy, Bool.true_and, Bool.and_true]
  simp [hna, hnb]

/-- C9 witness: lane value "194" matches shipment "19454" (score 1) but
not "20454" (score 0). -/
theorem c9_witness :
    scoreLaneRaw ["shippostalcode"] [("shippostalcode", Value.pystr "19454")]
      [("shippostalcode", Value.pystr "194")] =
      .ok (if pyStarts "19454" "194" then 1 else 0) ∧
    scoreLaneRaw ["shippostalcode"] [("shippostalcode", Value.pystr "20454")]
      [("shippostalcode", Value.pystr "194")] =
      .ok (if pyStarts "20454" "194" then 1 else 0) ∧
    (if pyStarts "19454" "194" then (1 : Nat) else 0) = 1 ∧
    (if pyStarts "20454" "194" then (1 : Nat) else 0) = 0 :=
  ⟨c9_postal_prefix_scoring "shippostalcode" "19454" "194" "19454" "194"
      (by decide) (by decide) (by decide) (by decide) (by decide),
   c9_postal_prefix_scoring "shippostalcode" "20454" "194" "20454" "194"
      (by decide) (by decide) (by decide) (by decide) (by decide),
   by decide, by decide⟩

/-- C10: a condition rule text without a colon is never scoped to a lane
value — the interpreter returns the same result for every pair of
rate-card values. -/
theorem c10_no_colon_no_scoping (v rc1 rc2 : Value) (text : String)
    (h : pyHasChar ':' (pyStrip text) = false) :
    value_satisfies_condition v rc1 text = value_satisfies_condition v rc2 text := by
  unfold value_satisfies_condition
  simp only [h, Bool.false_eq_true, if_false, ite_false]

/-- C10 witness: a colon-less rule evaluates identically under lane
values "NAC" and "OTHER". -/
theorem c10_witness :
    pyHasChar ':' (pyStrip "RATE_TYPE is empty in any item") = false ∧
    value_satisfies_condition Value.pynone (Value.pystr "NAC")
        "RATE_TYPE is empty in any item" =
      value_satisfies_condition Value.pynone (Value.pystr "OTHER")
        "RATE_TYPE is empty in any item" :=
  ⟨by decide, c10_no_colon_no_scoping _ _ _ _ (by decide)⟩

end CANF


